import Mathlib

/-!
Shallow embedding of the Todo server (src/server.ts).

The server is a single Express application over a SQLite database with two
tables, `users` and `tasks`.  We model the database as Lean lists of rows and
each HTTP handler as a pure function from the relevant request data (the
authenticated user id, parsed JSON body fields, headers, cookie-session
state) to the new store and the HTTP response.

Modelling conventions:
  * A JSON body field that may be absent is an `Option String`; `none` models
    the JavaScript value `undefined` (the field missing from the body).
  * JavaScript truthiness on such a field (`!x`, `x || d`) is `jsTruthy` /
    `jsOr`: both `undefined` and the empty string are falsy.
  * `bcrypt.hash`/`bcrypt.compare` are modelled by an injective tagging
    function `bhash`: `compare p h` succeeds exactly when `h = bhash p`.
    This captures the contract used by the server (a one-way hash that the
    comparison accepts for the original password).
  * `jwt.sign({userId}, secret)` / `jwt.verify(tok, secret)` are modelled by
    a `Token` record pairing the signing secret with the payload user id;
    verification succeeds exactly when the secrets match.  This captures the
    signature contract the server relies on.
  * `better-sqlite3` raises a `TypeError` when a bound parameter is
    `undefined`, and a `SqliteError` on a UNIQUE / PRIMARY KEY violation;
    both are modelled by `SqlError` inside `Except` for the one handler
    (POST /api/tasks) that has no try/catch of its own.
  * `ORDER BY dueDate ASC` in SQLite sorts NULL before every TEXT value and
    compares TEXT by byte order; the result is some permutation of the
    selected rows that is sorted for that order, which is what we model
    (via `List.insertionSort` over the order `dueOrder`).
-/

namespace TodoServer

/-- JavaScript truthiness of a possibly-absent string body field:
`undefined` and `""` are falsy. -/
def jsTruthy : Option String → Bool
  | some s => !(s == "")
  | none => false

/-- JavaScript `x || d` on a possibly-absent string field. -/
def jsOr (v : Option String) (d : String) : String :=
  match v with
  | some s => if s == "" then d else s
  | none => d

/-- Model of `bcrypt.hash(p, 10)` (server.ts line 121): an injective one-way
tagging of the password. -/
def bhash (p : String) : String := String.append "bcrypt:" p

/-- Model of `bcrypt.compare(password, storedHash)` (server.ts line 144). -/
def bcryptCompare (password storedHash : String) : Bool :=
  storedHash == bhash password

/-- `JWT_SECRET` (server.ts line 70), with the environment variable unset. -/
def jwtSecret : String := "brandbuilder-secret-key"

/-- Model of a signed JWT: the signing secret together with the `userId`
payload claim. -/
structure Token where
  secret : String
  userId : String
deriving DecidableEq, Repr

/-- Model of `jwt.sign({ userId }, secret)` (server.ts lines 125, 149). -/
def jwtSign (secret uid : String) : Token := ⟨secret, uid⟩

/-- Model of `jwt.verify(token, secret)` (server.ts line 102): succeeds with
the payload user id exactly when the token was signed with `secret`. -/
def jwtVerify (secret : String) (t : Token) : Option String :=
  if t.secret == secret then some t.userId else none

/-- A row of the `users` table (server.ts lines 17-46).  `id` is the PRIMARY
KEY, `email` is UNIQUE NOT NULL, `password` holds the bcrypt hash. -/
structure UserRow where
  id : String
  email : String
  password : String
  name : Option String
  isPremium : Nat
  brandName : Option String
  logoUrl : Option String
  primaryColor : String
  customDomain : Option String
deriving DecidableEq, Repr

/-- A row of the `tasks` table (server.ts lines 48-62).  `id` is the PRIMARY
KEY; `completed INTEGER DEFAULT 0` stores the flag as a number. -/
structure TaskRow where
  id : String
  userId : String
  text : String
  completed : Nat
  priority : Option String
  dueDate : Option String
  googleEventId : Option String
  reminderType : Option String
  reminderTiming : Option String
  contactInfo : Option String
deriving DecidableEq, Repr

/-- Response of POST /api/auth/register (server.ts lines 112-136). -/
inductive RegisterResp where
  | err (status : Nat) (msg : String)
  | created (userId : String) (token : Token)
deriving DecidableEq, Repr

/-- The user row the register INSERT creates (server.ts line 123), the
unset columns taking the schema's defaults. -/
def registeredRow (freshId em pw nm : String) : UserRow :=
  { id := freshId, email := em, password := bhash pw, name := some nm,
    isPremium := 0, brandName := none, logoUrl := none,
    primaryColor := "#059669", customDomain := none }

/-- POST /api/auth/register (server.ts lines 112-136).  `freshId` is the
random id drawn at line 120.  Validation rejects any missing or empty field;
the INSERT fails with a UNIQUE-constraint error (answered as the 400
email-conflict response, line 131-133) when the email — or the drawn id —
already exists. -/
def register (users : List UserRow) (freshId : String)
    (name email password : Option String) : List UserRow × RegisterResp :=
  match email, password, name with
  | some em, some pw, some nm =>
    if em == "" || pw == "" || nm == "" then
      (users, .err 400 "Todos os campos são obrigatórios")
    else if users.any (fun u => u.email == em || u.id == freshId) then
      (users, .err 400 "Email já cadastrado")
    else
      (users ++ [registeredRow freshId em pw nm],
        .created freshId (jwtSign jwtSecret freshId))
  | _, _, _ => (users, .err 400 "Todos os campos são obrigatórios")

/-- Response of POST /api/auth/login (server.ts lines 138-154). -/
inductive LoginResp where
  | err (status : Nat) (msg : String)
  | ok (userId : String) (token : Token)
deriving DecidableEq, Repr

/-- POST /api/auth/login (server.ts lines 138-154): look the user up by
email, compare the bcrypt hash, and answer one shared generic 401 on either
failure. -/
def login (users : List UserRow) (email password : String) : LoginResp :=
  match users.find? (fun u => u.email == email) with
  | some u =>
    if bcryptCompare password u.password then
      .ok u.id (jwtSign jwtSecret u.id)
    else
      .err 401 "Credenciais inválidas"
  | none => .err 401 "Credenciais inválidas"

/-- JavaScript `h.startsWith('Bearer ')`: the character sequence of `h`
begins with the seven characters of the bearer prefix. -/
def startsWithBearer (h : String) : Bool :=
  "Bearer ".data.isPrefixOf h.data

/-- JavaScript `h.substring(7)`: the characters of `h` from index 7 on. -/
def substringFrom7 (h : String) : String :=
  String.mk (h.data.drop 7)

/-- The token-selection step of the `authenticate` middleware (server.ts
lines 93-99):
`authHeader?.startsWith('Bearer ') ? authHeader.substring(7) : req.session?.token`
followed by the `if (!token)` falsiness rejection.  `none` as the result
models the 401 Unauthorized rejection. -/
def authenticateToken (authHeader sessionToken : Option String) : Option String :=
  let token : Option String :=
    match authHeader with
    | some h => if startsWithBearer h then some (substringFrom7 h) else sessionToken
    | none => sessionToken
  match token with
  | some t => if t == "" then none else some t
  | none => none

/-- Modelled from the spec words of the credential-priority claim: the
credential is taken from the bearer Authorization header when that channel
is present and non-empty, otherwise from the cookie-session token; `none`
when neither channel supplies a credential. -/
def specCredential (authHeader sessionToken : Option String) : Option String :=
  let bearer : Option String :=
    match authHeader with
    | some h =>
      if startsWithBearer h && !(substringFrom7 h == "") then
        some (substringFrom7 h)
      else none
    | none => none
  match bearer with
  | some t => some t
  | none =>
    match sessionToken with
    | some s => if s == "" then none else some s
    | none => none

/-- Whether the Authorization header is in bearer form (starts with the
literal prefix used at server.ts line 94). -/
def bearerFormatted (authHeader : Option String) : Bool :=
  match authHeader with
  | some h => startsWithBearer h
  | none => false

/-- The remainder of the Authorization header after the bearer prefix. -/
def bearerSuffix (authHeader : Option String) : String :=
  match authHeader with
  | some h => substringFrom7 h
  | none => ""

/-- The amended credential rule: a bearer-formatted header always wins and
its remainder is the credential — an empty remainder is rejected without
consulting the cookie session; only a non-bearer-formatted or absent header
falls back to the cookie-session token, and an empty or missing selected
credential is rejected (401). -/
def amendedCredential (authHeader sessionToken : Option String) : Option String :=
  if bearerFormatted authHeader then
    if bearerSuffix authHeader == "" then none else some (bearerSuffix authHeader)
  else
    match sessionToken with
    | some s => if s == "" then none else some s
    | none => none

/-- The shared success body `{ success: true }` of the task mutations. -/
inductive TaskResp where
  | success
deriving DecidableEq, Repr

/-- Errors `better-sqlite3` throws out of `.run(...)`:  `invalidBinding` for
an `undefined` bound parameter (a TypeError raised before the statement
runs), `uniqueViolation` for a UNIQUE / PRIMARY KEY constraint failure. -/
inductive SqlError where
  | invalidBinding
  | uniqueViolation
deriving DecidableEq, Repr

/-- The task row the POST /api/tasks INSERT creates (server.ts lines
200-203): `completed` takes its column default 0 and the reminder fields
take their JavaScript `||` defaults. -/
def insertedTaskRow (i uid tx pr dd ge : String)
    (reminderType reminderTiming contactInfo : Option String) : TaskRow :=
  { id := i, userId := uid, text := tx, completed := 0,
    priority := some pr, dueDate := some dd, googleEventId := some ge,
    reminderType := some (jsOr reminderType "none"),
    reminderTiming := some (jsOr reminderTiming "1h"),
    contactInfo := some (jsOr contactInfo "") }

/-- POST /api/tasks (server.ts lines 198-205).  The handler has no
try/catch, so a thrown database error escapes it; this is modelled as the
`Except.error` outcome.  The INSERT binds `id`, `text`, `priority`,
`dueDate`, `googleEventId` directly (an absent field is an `undefined`
binding and throws), applies `|| 'none'`, `|| '1h'`, `|| ''` defaults to
the reminder fields, stores `completed` via its column default 0, and
fails on a duplicate task id (PRIMARY KEY). -/
def postTasks (store : List TaskRow) (userId : String)
    (id text priority dueDate googleEventId reminderType reminderTiming
      contactInfo : Option String) :
    Except SqlError (List TaskRow × TaskResp) :=
  match id, text, priority, dueDate, googleEventId with
  | some i, some tx, some pr, some dd, some ge =>
    if store.any (fun t => t.id == i) then
      .error .uniqueViolation
    else
      .ok (store ++
        [insertedTaskRow i userId tx pr dd ge reminderType reminderTiming
          contactInfo], .success)
  | _, _, _, _, _ => .error .invalidBinding

/-- Effect of `UPDATE tasks SET completed = ? WHERE id = ? AND userId = ?`
on a single row (server.ts line 209): the body flag is stored as 1/0 by
`completed ? 1 : 0`. -/
def putRow (uid tid : String) (completed : Bool) (t : TaskRow) : TaskRow :=
  if t.id == tid && t.userId == uid then
    { t with completed := if completed then 1 else 0 }
  else t

/-- PUT /api/tasks/:id (server.ts lines 207-211): run the scoped UPDATE and
always answer `{ success: true }`. -/
def putTasks (store : List TaskRow) (uid tid : String) (completed : Bool) :
    List TaskRow × TaskResp :=
  (store.map (putRow uid tid completed), .success)

/-- DELETE /api/tasks/:id (server.ts lines 213-216):
`DELETE FROM tasks WHERE id = ? AND userId = ?`, always answering
`{ success: true }`. -/
def deleteTasks (store : List TaskRow) (uid tid : String) :
    List TaskRow × TaskResp :=
  (store.filter (fun t => !(t.id == tid && t.userId == uid)), .success)

/-- SQLite comparison for `ORDER BY dueDate ASC`: NULL sorts before every
TEXT value, TEXT compares by byte order. -/
def dueLE (a b : Option String) : Bool :=
  match a, b with
  | none, _ => true
  | some _, none => false
  | some x, some y => decide (x ≤ y)

/-- The row order realised by `ORDER BY dueDate ASC`. -/
def dueOrder (a b : TaskRow) : Prop := dueLE a.dueDate b.dueDate = true

instance : DecidableRel dueOrder := fun a b => by
  unfold dueOrder; infer_instance

instance : IsTotal TaskRow dueOrder := by
  constructor
  intro a b
  unfold dueOrder dueLE
  cases a.dueDate with
  | none => left; rfl
  | some x =>
    cases b.dueDate with
    | none => right; rfl
    | some y =>
      rcases le_total x y with h | h
      · left; simpa using h
      · right; simpa using h

instance : IsTrans TaskRow dueOrder := by
  constructor
  intro a b c hab hbc
  unfold dueOrder dueLE at hab hbc ⊢
  cases ha : a.dueDate with
  | none => rfl
  | some x =>
    cases hb : b.dueDate with
    | none => rw [ha, hb] at hab; simp at hab
    | some y =>
      cases hc : c.dueDate with
      | none => rw [hb, hc] at hbc; simp at hbc
      | some z =>
        rw [ha, hb] at hab
        rw [hb, hc] at hbc
        simp only [decide_eq_true_eq] at hab hbc ⊢
        exact le_trans hab hbc

/-- The rows `SELECT * FROM tasks WHERE userId = ? ORDER BY dueDate ASC`
produces (server.ts line 194): the user's rows in some order sorted by
`dueOrder` (SQLite guarantees the multiset and the sortedness; the
concrete permutation is realised here by insertion sort). -/
def listRows (store : List TaskRow) (uid : String) : List TaskRow :=
  List.insertionSort dueOrder (store.filter (fun t => t.userId == uid))

/-- A task as serialised in the GET /api/tasks response (server.ts
line 195): the row spread into JSON with `completed` replaced by the
boolean `!!t.completed`. -/
structure ApiTask where
  id : String
  userId : String
  text : String
  completed : Bool
  priority : Option String
  dueDate : Option String
  googleEventId : Option String
  reminderType : Option String
  reminderTiming : Option String
  contactInfo : Option String
deriving DecidableEq, Repr

/-- `({ ...t, completed: !!t.completed })` (server.ts line 195). -/
def apiOf (t : TaskRow) : ApiTask :=
  { id := t.id, userId := t.userId, text := t.text,
    completed := !(t.completed == 0), priority := t.priority,
    dueDate := t.dueDate, googleEventId := t.googleEventId,
    reminderType := t.reminderType, reminderTiming := t.reminderTiming,
    contactInfo := t.contactInfo }

/-- GET /api/tasks (server.ts lines 193-196). -/
def listTasks (store : List TaskRow) (uid : String) : List ApiTask :=
  (listRows store uid).map apiOf

/-- A concrete user row as registration creates it, for concrete checks. -/
def sampleUser : UserRow :=
  { id := "id1", email := "ana@x.com", password := bhash "secret",
    name := some "Ana", isPremium := 0, brandName := none, logoUrl := none,
    primaryColor := "#059669", customDomain := none }

/-- A concrete task row owned by user `alice`, for concrete checks. -/
def sampleTask : TaskRow :=
  { id := "t1", userId := "alice", text := "buy milk", completed := 0,
    priority := some "low", dueDate := some "2025-01-01",
    googleEventId := some "", reminderType := some "none",
    reminderTiming := some "1h", contactInfo := some "" }

/-- C1: for every task of user A and every distinct user B, B's list never
returns it, B's update leaves it unchanged (and still present), and B's
delete leaves it in the store — every task query and mutation is scoped by
the authenticated user id. -/
theorem cross_user_isolation (store : List TaskRow) (a b tid : String)
    (c : Bool) (t : TaskRow) (hab : a ≠ b) (ht : t ∈ store)
    (hown : t.userId = a) :
    apiOf t ∉ listTasks store b ∧ putRow b tid c t = t ∧
      t ∈ (putTasks store b tid c).1 ∧ t ∈ (deleteTasks store b tid).1 := by
  have hub : (t.userId == b) = false := by
    rw [beq_eq_false_iff_ne, hown]; exact hab
  have hput : putRow b tid c t = t := by
    unfold putRow
    rw [hub, Bool.and_false]
    rfl
  refine ⟨?_, hput, ?_, ?_⟩
  · intro hmem
    unfold listTasks listRows at hmem
    rcases List.mem_map.mp hmem with ⟨r, hr, hre⟩
    have hrf : r ∈ store.filter (fun x => x.userId == b) :=
      (List.mem_insertionSort dueOrder).mp hr
    have hrb : (r.userId == b) = true := (List.mem_filter.mp hrf).2
    have hrt : r.userId = t.userId := congrArg ApiTask.userId hre
    rw [hrt, hown] at hrb
    exact hab (eq_of_beq hrb)
  · show t ∈ store.map (putRow b tid c)
    exact List.mem_map.mpr ⟨t, ht, hput⟩
  · show t ∈ store.filter _
    refine List.mem_filter.mpr ⟨ht, ?_⟩
    rw [hub, Bool.and_false]
    rfl

theorem cross_user_isolation_witness :
    apiOf sampleTask ∉ listTasks [sampleTask] "bob" ∧
      putRow "bob" "t1" true sampleTask = sampleTask ∧
      sampleTask ∈ (putTasks [sampleTask] "bob" "t1" true).1 ∧
      sampleTask ∈ (deleteTasks [sampleTask] "bob" "t1").1 :=
  cross_user_isolation [sampleTask] "alice" "bob" "t1" true sampleTask
    (by decide) (List.mem_singleton.mpr rfl) rfl

/-- C3 counterexample: with the Authorization header equal to the bare
prefix (an empty bearer credential) and a non-empty cookie-session token,
the spec's priority rule selects the session token, but the code rejects
the request as unauthenticated (401) without consulting the session. -/
theorem authenticate_priority_counterexample :
    authenticateToken (some "Bearer ") (some "sess") = none ∧
      specCredential (some "Bearer ") (some "sess") = some "sess" ∧
      authenticateToken (some "Bearer ") (some "sess") ≠
        specCredential (some "Bearer ") (some "sess") := by
  refine ⟨by decide, by decide, ?_⟩
  intro h
  rw [show authenticateToken (some "Bearer ") (some "sess") = none by decide,
    show specCredential (some "Bearer ") (some "sess") = some "sess" by decide] at h
  exact Option.noConfusion h

/-- C3 amended: whenever the Authorization header starts with "Bearer ",
its remainder is the credential and the cookie session is never consulted
(in particular an empty remainder is rejected 401 even when a session token
exists); otherwise the cookie-session token is used; an empty or missing
selected credential is rejected 401 (modelled as `none`). -/
theorem authenticate_priority_amended (h s : Option String) :
    authenticateToken h s = amendedCredential h s := by
  unfold authenticateToken amendedCredential bearerFormatted bearerSuffix
  cases h with
  | none => rfl
  | some hd =>
    by_cases hb : startsWithBearer hd = true
    · simp [hb]
    · simp [hb]

/-- C5: the POST /api/tasks handler has no try/catch, so a database error
escapes it uncaught (`Except.error`) instead of being converted to a JSON
error body: here at a duplicate task id (PRIMARY KEY violation) and at a
missing `text` field (an `undefined` parameter binding). -/
theorem postTasks_error_escapes_handler :
    postTasks [sampleTask] "bob" (some "t1") (some "y") (some "low")
        (some "2025-01-02") (some "") (some "none") (some "1h") (some "") =
      .error .uniqueViolation ∧
    postTasks [] "alice" (some "t9") none (some "low") (some "2025-01-02")
        (some "") none none none = .error .invalidBinding := by
  exact ⟨rfl, rfl⟩

/-- C8: PUT /api/tasks/:id always reports success, only the completion flag
of a row can change (every other field of every row is preserved), a row
that is not the caller's addressed task is unchanged, and when the id does
not belong to the caller the whole call is a no-op that still reports
success. -/
theorem update_only_completed (store : List TaskRow) (uid tid : String)
    (c : Bool) :
    (putTasks store uid tid c).2 = .success ∧
    (∀ t : TaskRow,
      (putRow uid tid c t).id = t.id ∧
      (putRow uid tid c t).userId = t.userId ∧
      (putRow uid tid c t).text = t.text ∧
      (putRow uid tid c t).priority = t.priority ∧
      (putRow uid tid c t).dueDate = t.dueDate ∧
      (putRow uid tid c t).googleEventId = t.googleEventId ∧
      (putRow uid tid c t).reminderType = t.reminderType ∧
      (putRow uid tid c t).reminderTiming = t.reminderTiming ∧
      (putRow uid tid c t).contactInfo = t.contactInfo) ∧
    (∀ t : TaskRow, ¬(t.id = tid ∧ t.userId = uid) → putRow uid tid c t = t) ∧
    ((∀ t ∈ store, ¬(t.id = tid ∧ t.userId = uid)) →
      putTasks store uid tid c = (store, .success)) := by
  have hfix : ∀ t : TaskRow, ¬(t.id = tid ∧ t.userId = uid) →
      putRow uid tid c t = t := by
    intro t hn
    unfold putRow
    cases hcond : (t.id == tid && t.userId == uid) with
    | false => rfl
    | true =>
      rw [Bool.and_eq_true] at hcond
      exact absurd ⟨eq_of_beq hcond.1, eq_of_beq hcond.2⟩ hn
  refine ⟨rfl, ?_, hfix, ?_⟩
  · intro t
    unfold putRow
    cases hcond : (t.id == tid && t.userId == uid) <;> simp
  · intro hall
    unfold putTasks
    have hmap : store.map (putRow uid tid c) = store := by
      rw [List.map_congr_left (g := id) (fun t ht => hfix t (hall t ht))]
      exact List.map_id store
    rw [hmap]

theorem update_only_completed_witness :
    putTasks [sampleTask] "bob" "t9" true = ([sampleTask], .success) :=
  (update_only_completed [sampleTask] "bob" "t9" true).2.2.2 (by decide)

/-- C9: DELETE /api/tasks/:id always reports success, is a no-op when the
id does not belong to the caller (no existence error), and deleting twice
has the same effect as deleting once. -/
theorem delete_noop_idempotent (store : List TaskRow) (uid tid : String) :
    (deleteTasks store uid tid).2 = .success ∧
    ((∀ t ∈ store, ¬(t.id = tid ∧ t.userId = uid)) →
      (deleteTasks store uid tid).1 = store) ∧
    deleteTasks (deleteTasks store uid tid).1 uid tid =
      deleteTasks store uid tid := by
  refine ⟨rfl, ?_, ?_⟩
  · intro hall
    show store.filter _ = store
    refine List.filter_eq_self.mpr (fun t ht => ?_)
    have hn := hall t ht
    cases hcond : (t.id == tid && t.userId == uid) with
    | false => rfl
    | true =>
      rw [Bool.and_eq_true] at hcond
      exact absurd ⟨eq_of_beq hcond.1, eq_of_beq hcond.2⟩ hn
  · unfold deleteTasks
    rw [List.filter_filter]
    congr 1
    apply List.filter_congr
    intro t _
    cases t.id == tid && t.userId == uid <;> rfl

theorem delete_noop_idempotent_witness :
    (deleteTasks [sampleTask] "bob" "t9").1 = [sampleTask] :=
  (delete_noop_idempotent [sampleTask] "bob" "t9").2.1 (by decide)

/-- C10: login with an unknown email and login with a known email but wrong
password answer the identical generic failure — HTTP 401 with the same
error body — so the caller cannot distinguish the two cases. -/
theorem login_failure_generic (users : List UserRow) (e1 p1 e2 p2 : String)
    (u : UserRow) (h1 : users.find? (fun v => v.email == e1) = none)
    (h2 : users.find? (fun v => v.email == e2) = some u)
    (h3 : u.password ≠ bhash p2) :
    login users e1 p1 = .err 401 "Credenciais inválidas" ∧
    login users e2 p2 = .err 401 "Credenciais inválidas" ∧
    login users e1 p1 = login users e2 p2 := by
  have hA : login users e1 p1 = .err 401 "Credenciais inválidas" := by
    unfold login; rw [h1]
  have hB : login users e2 p2 = .err 401 "Credenciais inválidas" := by
    have hcmp : bcryptCompare p2 u.password = false := by
      unfold bcryptCompare
      exact beq_eq_false_iff_ne.mpr h3
    unfold login
    rw [h2]
    simp [hcmp]
  exact ⟨hA, hB, hA.trans hB.symm⟩

theorem login_failure_generic_witness :
    login [sampleUser] "nobody@x.com" "pw" = .err 401 "Credenciais inválidas" ∧
    login [sampleUser] "ana@x.com" "wrong" = .err 401 "Credenciais inválidas" ∧
    login [sampleUser] "nobody@x.com" "pw" = login [sampleUser] "ana@x.com" "wrong" :=
  login_failure_generic [sampleUser] "nobody@x.com" "pw" "ana@x.com" "wrong"
    sampleUser (by decide) (by decide) (by decide)

/-- C2: a valid registration (non-empty name, email, password; email and
drawn id not already present) answers the created user id and a signed
token, and a subsequent login with the same email and password succeeds
with a token that verification accepts, yielding the same user id. -/
theorem register_then_login (users : List UserRow) (freshId nm em pw : String)
    (hnm : nm ≠ "") (hem : em ≠ "") (hpw : pw ≠ "")
    (hfreshEmail : ∀ u ∈ users, u.email ≠ em)
    (hfreshId : ∀ u ∈ users, u.id ≠ freshId) :
    (register users freshId (some nm) (some em) (some pw)).2 =
      .created freshId (jwtSign jwtSecret freshId) ∧
    login (register users freshId (some nm) (some em) (some pw)).1 em pw =
      .ok freshId (jwtSign jwtSecret freshId) ∧
    jwtVerify jwtSecret (jwtSign jwtSecret freshId) = some freshId := by
  have hcond : (em == "" || pw == "" || nm == "") = false := by
    simp only [Bool.or_eq_false_iff, beq_eq_false_iff_ne]
    exact ⟨⟨hem, hpw⟩, hnm⟩
  have hany : (users.any fun u => u.email == em || u.id == freshId) = false := by
    refine List.any_eq_false.mpr (fun u hu => ?_)
    simp only [Bool.or_eq_true, beq_iff_eq, not_or]
    exact ⟨hfreshEmail u hu, hfreshId u hu⟩
  have hreg : register users freshId (some nm) (some em) (some pw) =
      (users ++ [registeredRow freshId em pw nm],
        .created freshId (jwtSign jwtSecret freshId)) := by
    simp [register, hcond, hany]
  refine ⟨by rw [hreg], ?_, by simp [jwtVerify, jwtSign]⟩
  rw [hreg]
  unfold login
  rw [List.find?_append]
  have hnone : users.find? (fun u => u.email == em) = none := by
    refine List.find?_eq_none.mpr (fun u hu => ?_)
    simp only [beq_iff_eq]
    exact hfreshEmail u hu
  rw [hnone]
  simp [registeredRow, bcryptCompare, List.find?]

theorem register_then_login_witness :
    (register [] "id1" (some "Ana") (some "ana@x.com") (some "secret")).2 =
      .created "id1" (jwtSign jwtSecret "id1") ∧
    login (register [] "id1" (some "Ana") (some "ana@x.com") (some "secret")).1
        "ana@x.com" "secret" = .ok "id1" (jwtSign jwtSecret "id1") ∧
    jwtVerify jwtSecret (jwtSign jwtSecret "id1") = some "id1" :=
  register_then_login [] "id1" "Ana" "ana@x.com" "secret"
    (by decide) (by decide) (by decide) (by simp) (by simp)

/-- C4: registering an email that already exists answers the 400 conflict
body and leaves the whole users table — in particular the already
registered user's record with all its fields — unchanged; registering with
any missing or empty field answers the 400 validation body, also leaving
the table unchanged. -/
theorem register_conflict_validation (users : List UserRow)
    (freshId nm em pw : String) (u0 : UserRow)
    (hu0 : u0 ∈ users) (hdup : u0.email = em)
    (hnm : nm ≠ "") (hem : em ≠ "") (hpw : pw ≠ "") :
    register users freshId (some nm) (some em) (some pw) =
      (users, .err 400 "Email já cadastrado") ∧
    (∀ n e p : Option String,
      jsTruthy n = false ∨ jsTruthy e = false ∨ jsTruthy p = false →
      register users freshId n e p =
        (users, .err 400 "Todos os campos são obrigatórios")) := by
  constructor
  · have hcond : (em == "" || pw == "" || nm == "") = false := by
      simp only [Bool.or_eq_false_iff, beq_eq_false_iff_ne]
      exact ⟨⟨hem, hpw⟩, hnm⟩
    have hany : (users.any fun u => u.email == em || u.id == freshId) = true := by
      refine List.any_eq_true.mpr ⟨u0, hu0, ?_⟩
      simp [hdup]
    simp [register, hcond, hany]
  · intro n e p hfalsy
    rcases n with _ | ns <;> rcases e with _ | es <;> rcases p with _ | ps <;>
        simp only [register]
    simp only [jsTruthy, Bool.not_eq_false', beq_iff_eq] at hfalsy
    have hor : (es == "" || ps == "" || ns == "") = true := by
      rcases hfalsy with hx | hx | hx <;> simp [hx]
    simp [hor]

theorem register_conflict_validation_witness :
    register [sampleUser] "id2" (some "Bob") (some "ana@x.com") (some "pw") =
      ([sampleUser], .err 400 "Email já cadastrado") :=
  (register_conflict_validation [sampleUser] "id2" "Bob" "ana@x.com" "pw"
    sampleUser (List.mem_singleton.mpr rfl) rfl
    (by decide) (by decide) (by decide)).1

/-- C6: GET /api/tasks returns exactly the authenticated user's tasks (as
serialised rows), sorted ascending by due date under SQLite's consistent
null-ordering rule for `ORDER BY dueDate ASC` — rows with no due date come
first, before every concrete due date. -/
theorem list_tasks_ordered (store : List TaskRow) (uid : String) :
    List.Perm (listTasks store uid)
      ((store.filter (fun t => t.userId == uid)).map apiOf) ∧
    List.Pairwise (fun a b : ApiTask => dueLE a.dueDate b.dueDate = true)
      (listTasks store uid) ∧
    (∀ a ∈ listTasks store uid, a.userId = uid) := by
  refine ⟨?_, ?_, ?_⟩
  · exact List.Perm.map apiOf (List.perm_insertionSort dueOrder _)
  · have hs := List.sorted_insertionSort dueOrder
      (store.filter (fun t => t.userId == uid))
    exact List.Pairwise.map apiOf (fun a b hab => hab) hs
  · intro a ha
    rcases List.mem_map.mp ha with ⟨r, hr, rfl⟩
    have hmem := (List.mem_insertionSort dueOrder).mp hr
    exact eq_of_beq (List.mem_filter.mp hmem).2

/-- C7: creating a task with every field supplied (and a fresh id) succeeds
and appends the row with `completed` stored as 0; a subsequent list by the
same user contains that task serialised with `completed` normalised to the
boolean `false` and every other supplied field intact. -/
theorem create_then_list_roundtrip (store : List TaskRow)
    (uid i tx pr dd ge rt rtim ci : String)
    (hfresh : ∀ t ∈ store, t.id ≠ i)
    (hrt : rt ≠ "") (hrtim : rtim ≠ "") (hci : ci ≠ "") :
    postTasks store uid (some i) (some tx) (some pr) (some dd) (some ge)
        (some rt) (some rtim) (some ci) =
      .ok (store ++ [insertedTaskRow i uid tx pr dd ge (some rt) (some rtim)
        (some ci)], .success) ∧
    insertedTaskRow i uid tx pr dd ge (some rt) (some rtim) (some ci) =
      { id := i, userId := uid, text := tx, completed := 0,
        priority := some pr, dueDate := some dd, googleEventId := some ge,
        reminderType := some rt, reminderTiming := some rtim,
        contactInfo := some ci } ∧
    ({ id := i, userId := uid, text := tx, completed := false,
       priority := some pr, dueDate := some dd, googleEventId := some ge,
       reminderType := some rt, reminderTiming := some rtim,
       contactInfo := some ci } : ApiTask) ∈
      listTasks (store ++ [insertedTaskRow i uid tx pr dd ge (some rt)
        (some rtim) (some ci)]) uid := by
  have hany : (store.any fun t => t.id == i) = false := by
    refine List.any_eq_false.mpr (fun t ht => ?_)
    simp only [beq_iff_eq]
    exact hfresh t ht
  have hjsrt : jsOr (some rt) "none" = rt := by
    simp [jsOr, beq_eq_false_iff_ne.mpr hrt]
  have hjsrtim : jsOr (some rtim) "1h" = rtim := by
    simp [jsOr, beq_eq_false_iff_ne.mpr hrtim]
  have hjsci : jsOr (some ci) "" = ci := by
    simp [jsOr, beq_eq_false_iff_ne.mpr hci]
  have hrow : insertedTaskRow i uid tx pr dd ge (some rt) (some rtim)
      (some ci) =
      { id := i, userId := uid, text := tx, completed := 0,
        priority := some pr, dueDate := some dd, googleEventId := some ge,
        reminderType := some rt, reminderTiming := some rtim,
        contactInfo := some ci } := by
    unfold insertedTaskRow
    rw [hjsrt, hjsrtim, hjsci]
  refine ⟨by simp [postTasks, hany], hrow, ?_⟩
  unfold listTasks listRows
  refine List.mem_map.mpr
    ⟨insertedTaskRow i uid tx pr dd ge (some rt) (some rtim) (some ci),
      ?_, by rw [hrow]; rfl⟩
  refine (List.mem_insertionSort dueOrder).mpr ?_
  refine List.mem_filter.mpr ⟨?_, by simp [insertedTaskRow]⟩
  exact List.mem_append.mpr (Or.inr (List.mem_singleton.mpr rfl))

theorem create_then_list_roundtrip_witness :
    ({ id := "t7", userId := "alice", text := "call mom", completed := false,
       priority := some "high", dueDate := some "2025-05-05",
       googleEventId := some "g1", reminderType := some "email",
       reminderTiming := some "24h", contactInfo := some "c@x.com" } :
      ApiTask) ∈
      listTasks ([] ++ [insertedTaskRow "t7" "alice" "call mom" "high"
        "2025-05-05" "g1" (some "email") (some "24h") (some "c@x.com")])
        "alice" :=
  (create_then_list_roundtrip [] "alice" "t7" "call mom" "high" "2025-05-05"
    "g1" "email" "24h" "c@x.com" (by simp) (by decide) (by decide)
    (by decide)).2.2

end TodoServer
